import Mathlib

/-
Verification development for the resume document versioning and provenance
engine (src/functions/index.js).

The JavaScript source is shallowly embedded: Firestore is modeled as an
explicit `Store` of association lists, each Cloud Function handler as a pure
Lean function from request, environment (the external collaborators: the
generative model, the PDF rendering service, the blob download) and store to
a response, an updated store, and the emitted log entries.  JSON.parse is
modeled by an executable fuel-based JSON parser; JavaScript truthiness of the
optional request fields is modeled explicitly.
-/

namespace Resudemo

/-- JavaScript values produced by JSON.parse.  Numbers are kept as their
source lexeme: no claim depends on numeric-value identities, and this avoids
floating point. -/
inductive Json where
  | null : Json
  | bool (b : Bool) : Json
  | num (lexeme : String) : Json
  | str (s : String) : Json
  | arr (elems : List Json) : Json
  | obj (fields : List (String × Json)) : Json
deriving Repr

/-- Association-list lookup, the model of reading a document by id from a
Firestore collection. -/
def alookup {α : Type} [DecidableEq α] {β : Type} : List (α × β) → α → Option β
  | [], _ => none
  | (k, v) :: rest, key => if k = key then some v else alookup rest key

/-- Association-list insert/replace, the model of `set`/`update` of a document
(or of one map field) by id: replaces in place if the key exists, appends
otherwise. -/
def aset {α : Type} [DecidableEq α] {β : Type} : List (α × β) → α → β → List (α × β)
  | [], key, val => [(key, val)]
  | (k, v) :: rest, key, val =>
      if k = key then (key, val) :: rest else (k, v) :: aset rest key val

/-- JSON whitespace per RFC 8259 (what JSON.parse skips). -/
def isJsonWs (c : Char) : Bool :=
  c = ' ' || c = '\t' || c = '\n' || c = '\r'

/-- Drop leading JSON whitespace. -/
def skipWs : List Char → List Char
  | [] => []
  | c :: cs => if isJsonWs c then skipWs cs else c :: cs

/-- Hexadecimal digit value, for unicode escapes in JSON strings. -/
def hexVal (c : Char) : Option Nat :=
  if '0' ≤ c ∧ c ≤ '9' then some (c.toNat - '0'.toNat)
  else if 'a' ≤ c ∧ c ≤ 'f' then some (c.toNat - 'a'.toNat + 10)
  else if 'A' ≤ c ∧ c ≤ 'F' then some (c.toNat - 'A'.toNat + 10)
  else none

/-- Parse the body of a JSON string after the opening quote; returns the
decoded string and the remaining input.  Unescaped control characters are
rejected, as JSON.parse rejects them.  (Surrogate pairs in escapes are mapped
per code unit, a detail no claim touches.) -/
def parseStringAux : Nat → List Char → List Char → Option (String × List Char)
  | 0, _, _ => none
  | fuel + 1, acc, cs =>
    match cs with
    | [] => none
    | c :: rest =>
      if c = '"' then some (String.mk acc.reverse, rest)
      else if c = '\\' then
        match rest with
        | [] => none
        | e :: rest2 =>
          if e = '"' then parseStringAux fuel ('"' :: acc) rest2
          else if e = '\\' then parseStringAux fuel ('\\' :: acc) rest2
          else if e = '/' then parseStringAux fuel ('/' :: acc) rest2
          else if e = 'b' then parseStringAux fuel ('\x08' :: acc) rest2
          else if e = 'f' then parseStringAux fuel ('\x0c' :: acc) rest2
          else if e = 'n' then parseStringAux fuel ('\n' :: acc) rest2
          else if e = 'r' then parseStringAux fuel ('\r' :: acc) rest2
          else if e = 't' then parseStringAux fuel ('\t' :: acc) rest2
          else if e = 'u' then
            match rest2 with
            | h1 :: h2 :: h3 :: h4 :: rest3 =>
              match hexVal h1, hexVal h2, hexVal h3, hexVal h4 with
              | some a, some b, some c2, some d =>
                  parseStringAux fuel (Char.ofNat (a * 4096 + b * 256 + c2 * 16 + d) :: acc) rest3
              | _, _, _, _ => none
            | _ => none
          else none
      else if c.toNat < 32 then none
      else parseStringAux fuel (c :: acc) rest

/-- Split off a maximal run of decimal digits. -/
def takeDigits : List Char → List Char × List Char
  | [] => ([], [])
  | c :: cs =>
      if c.isDigit then
        let (ds, rest) := takeDigits cs
        (c :: ds, rest)
      else ([], c :: cs)

/-- Parse a JSON number starting at the current position, returning its
lexeme and the remaining input.  Follows the RFC 8259 grammar: an optional
minus, an integer part with no leading zero, an optional fraction, an
optional exponent. -/
def parseNumberLex (cs : List Char) : Option (String × List Char) :=
  let (sign, cs1) := match cs with
    | '-' :: r => (['-'], r)
    | _ => (([] : List Char), cs)
  match cs1 with
  | [] => none
  | c :: rest =>
    if c = '0' then
      let (intPart, cs2) := ([c], rest)
      parseNumberTail sign intPart cs2
    else if c.isDigit then
      let (ds, cs2) := takeDigits rest
      parseNumberTail sign (c :: ds) cs2
    else none
where
  /-- Fraction and exponent parts of a JSON number. -/
  parseNumberTail (sign intPart : List Char) (cs2 : List Char) :
      Option (String × List Char) :=
    match cs2 with
    | '.' :: r =>
      let (ds, rest) := takeDigits r
      if ds = [] then none else parseExpPart sign intPart ('.' :: ds) rest
    | _ => parseExpPart sign intPart [] cs2
  /-- Dispatch on an optional exponent marker. -/
  parseExpPart (sign intPart fracPart : List Char) (cs3 : List Char) :
      Option (String × List Char) :=
    match cs3 with
    | 'e' :: r => parseExp sign intPart fracPart 'e' r
    | 'E' :: r => parseExp sign intPart fracPart 'E' r
    | _ => some (String.mk (sign ++ intPart ++ fracPart), cs3)
  /-- Exponent part of a JSON number. -/
  parseExp (sign intPart fracPart : List Char) (e : Char) (r : List Char) :
      Option (String × List Char) :=
    let (esign, r1) : List Char × List Char := match r with
      | '+' :: r2 => (['+'], r2)
      | '-' :: r2 => (['-'], r2)
      | _ => ([], r)
    let (ds, r2) := takeDigits r1
    if ds = [] then none
    else some (String.mk (sign ++ intPart ++ fracPart ++ [e] ++ esign ++ ds), r2)

/-- Match an exact literal tail (for `true`, `false`, `null`). -/
def matchLit : List Char → List Char → Option (List Char)
  | [], cs => some cs
  | l :: ls, c :: cs => if c = l then matchLit ls cs else none
  | _ :: _, [] => none

mutual

/-- Parse one JSON value (fuel-based recursion; the callers supply fuel
exceeding the input length, and every concrete claim is settled by
evaluation). -/
def parseValueAux : Nat → List Char → Option (Json × List Char)
  | 0, _ => none
  | fuel + 1, cs =>
    let cs := skipWs cs
    match cs with
    | [] => none
    | c :: rest =>
      if c = '"' then
        match parseStringAux (fuel + 1) [] rest with
        | some (s, r) => some (Json.str s, r)
        | none => none
      else if c = '\x7b' then parseObjAux fuel rest
      else if c = '[' then parseArrAux fuel rest
      else if c = 't' then
        match matchLit ['r', 'u', 'e'] rest with
        | some r => some (Json.bool true, r)
        | none => none
      else if c = 'f' then
        match matchLit ['a', 'l', 's', 'e'] rest with
        | some r => some (Json.bool false, r)
        | none => none
      else if c = 'n' then
        match matchLit ['u', 'l', 'l'] rest with
        | some r => some (Json.null, r)
        | none => none
      else if c = '-' || c.isDigit then
        match parseNumberLex (c :: rest) with
        | some (lx, r) => some (Json.num lx, r)
        | none => none
      else none

/-- Parse a JSON object after the opening brace. -/
def parseObjAux : Nat → List Char → Option (Json × List Char)
  | 0, _ => none
  | fuel + 1, cs =>
    let cs := skipWs cs
    match cs with
    | '\x7d' :: rest => some (Json.obj [], rest)
    | _ => parseMembersAux fuel [] cs

/-- Parse the members of a JSON object (after `{` when the object is
nonempty, or after a comma).  A repeated key keeps its first position with
the last value, as JSON.parse does. -/
def parseMembersAux : Nat → List (String × Json) → List Char → Option (Json × List Char)
  | 0, _, _ => none
  | fuel + 1, acc, cs =>
    let cs := skipWs cs
    match cs with
    | '"' :: rest =>
      match parseStringAux (fuel + 1) [] rest with
      | none => none
      | some (key, cs1) =>
        match skipWs cs1 with
        | ':' :: cs3 =>
          match parseValueAux fuel cs3 with
          | none => none
          | some (v, cs4) =>
            let acc2 := aset acc key v
            match skipWs cs4 with
            | ',' :: cs6 => parseMembersAux fuel acc2 cs6
            | '\x7d' :: cs6 => some (Json.obj acc2, cs6)
            | _ => none
        | _ => none
    | _ => none

/-- Parse a JSON array after the opening bracket. -/
def parseArrAux : Nat → List Char → Option (Json × List Char)
  | 0, _ => none
  | fuel + 1, cs =>
    let cs := skipWs cs
    match cs with
    | ']' :: rest => some (Json.arr [], rest)
    | _ => parseElemsAux fuel [] cs

/-- Parse the elements of a nonempty JSON array. -/
def parseElemsAux : Nat → List Json → List Char → Option (Json × List Char)
  | 0, _, _ => none
  | fuel + 1, acc, cs =>
    match parseValueAux fuel cs with
    | none => none
    | some (v, cs1) =>
      match skipWs cs1 with
      | ',' :: cs2 => parseElemsAux fuel (v :: acc) cs2
      | ']' :: cs2 => some (Json.arr (v :: acc).reverse, cs2)
      | _ => none

end

/-- The model of `JSON.parse(raw)`: `some` on a syntactically valid JSON
document with nothing but whitespace after it, `none` where JSON.parse
throws. -/
def jsonParse (s : String) : Option Json :=
  match parseValueAux (s.length + 1) s.data with
  | some (v, rest) => if skipWs rest = [] then some v else none
  | none => none

/-- JavaScript property access `j.key`: `none` plays the role of
`undefined`. -/
def jget : Json → String → Option Json
  | Json.obj fields, key => alookup fields key
  | _, _ => none

/-- A JSON number lexeme is falsy exactly when its value is zero, i.e. every
digit of the mantissa (before any exponent marker) is `0`. -/
def numLexemeTruthy (lx : String) : Bool :=
  (lx.takeWhile (fun c => c != 'e' && c != 'E')).any (fun c => c.isDigit && c != '0')

/-- JavaScript truthiness of a JSON value. -/
def jsTruthy : Json → Bool
  | Json.null => false
  | Json.bool b => b
  | Json.num lx => numLexemeTruthy lx
  | Json.str t => t != ""
  | Json.arr _ => true
  | Json.obj _ => true

/-- Truthiness of a possibly-absent string request field (`undefined` and the
empty string are falsy). -/
def truthyOptStr : Option String → Bool
  | some t => t != ""
  | none => false

/-- Truthiness of a possibly-absent integer request field (`undefined` and
`0` are falsy). -/
def truthyOptInt : Option Int → Bool
  | some n => n != 0
  | none => false

/-- The model-output parsing step shared by all three handlers
(`JSON.parse` with a catch-all producing the plain `{rawText}` object):
`let parsed; try { parsed = JSON.parse(raw) } catch { parsed = {rawText: raw} }`. -/
def parseModelOutput (raw : String) : Json :=
  match jsonParse raw with
  | some j => j
  | none => Json.obj [("rawText", Json.str raw)]

/-- The constant GENERATION_MODEL. -/
def GENERATION_MODEL : String := "gemini-2.5-flash"

/-- A document of the `file` collection.  Fields the handlers read
defensively (`owner`, `path`, `numAnalysis`) are optional; `analysis` is the
position-to-analysisID map written via the `analysis.{idx}` field paths (the
`analysis: []` array a generated file starts with is replaced by a map on the
first such update, so both states are modeled by the association list).
`type` is renamed `ftype` (Lean keyword). -/
structure FileRec where
  owner : Option String
  path : Option String
  numAnalysis : Option Nat
  analysis : List (Nat × String)
  filename : String
  ftype : String
  lastUpdate : Nat
  uploadDate : Nat
deriving Repr

/-- A document of the `analysis` collection. -/
structure AnalysisRec where
  owner : Option String
  fileID : String
  content : Json
  generateTime : Nat
  model : String
  userRating : Option Int
  userComment : Option String
  nextAnalysis : Option String
deriving Repr

/-- The rendering-service MCP payload (step 5 of generatePdf). -/
structure McpPayload where
  text : Json
  title : String
  pageSize : String
  margins : String
  fontFamily : String
  lineHeight : Json
  headerHtml : String
  footerHtml : String
  pageNumbers : Bool
deriving Repr

/-- The version metadata document written under
`users/{userId}/resumes/{resumeId}/versions/{versionId}`. -/
structure VersionMeta where
  pdf_url : String
  gcs_uri : String
  firebase_path : String
  fileID : String
  generated_at : Nat
  page_count : Option Nat
  bytes : Option Nat
  title : String
  generation_params : McpPayload
deriving Repr

/-- The Firestore state touched by the handlers: the `file` and `analysis`
collections, the `user` collection's `files` arrays, and the per-version
metadata subcollection documents keyed by (userId, resumeId, versionId). -/
structure Store where
  files : List (String × FileRec)
  analyses : List (String × AnalysisRec)
  users : List (String × List String)
  versions : List ((String × String × String) × VersionMeta)
deriving Repr

/-- An HTTP response as produced by `res.status(n).send(body)`. -/
structure HRes where
  status : Nat
  body : Json
deriving Repr

/-- A log entry: severity and message. -/
abbrev LogEntry := String × String

/-- The transaction body of analyzeResumeText (index.js lines 116-145): the
Document is re-read inside the transaction, the authoritative `numAnalysis`
is incremented, the `analysis.{newIdx}` map entry and the new analysis
document are written atomically.  When the file document does not exist the
callback returns early after logging, so the transaction commits with no
writes. -/
def analyzeResumeTextTxn (parsed : Json) (fileID : String) (now : Nat) (s : Store) :
    Store × List LogEntry :=
  match alookup s.files fileID with
  | none => (s, [("error", "File document not found for fileID: " ++ fileID)])
  | some fileDoc =>
    let currentNumAnalysis := fileDoc.numAnalysis.getD 0
    let newIdx := currentNumAnalysis + 1
    let analysisID := fileID ++ "-" ++ toString newIdx
    let fileDoc2 := { fileDoc with
      lastUpdate := now
      numAnalysis := some newIdx
      analysis := aset fileDoc.analysis newIdx analysisID }
    let analysisRec : AnalysisRec := {
      owner := some (fileDoc.owner.getD "")
      fileID := fileID
      content := parsed
      generateTime := now
      model := GENERATION_MODEL
      userRating := none
      userComment := none
      nextAnalysis := none }
    ({ s with
        files := aset s.files fileID fileDoc2
        analyses := aset s.analyses analysisID analysisRec }, [])

/-- The external collaborators of analyzeResumeText: the generative model
call (`.error` = transport failure thrown by the SDK, `.ok` = the raw
response text, to which `|| "{}"` is applied) and the server timestamp. -/
structure ArtEnv where
  modelOutcome : Except String String
  now : Nat

/-- analyzeResumeText (index.js lines 62-154): warns on short text, calls the
model, parses its output with the `{rawText}` fallback, then runs the
versioning transaction.  On a model failure the error is logged and
rethrown (`.error`); otherwise the parsed result is returned (`.ok`) - also
when the transaction found no file document. -/
def analyzeResumeText (text : String) (fileID : String) (filePath : String)
    (env : ArtEnv) (s : Store) : Except String Json × Store × List LogEntry :=
  let warnLogs : List LogEntry :=
    if text.trim.length < 100 then [("warn", "Resume text too short or empty.")] else []
  match env.modelOutcome with
  | .error e => (.error e, s, warnLogs ++ [("error", "analyzeResumeText error:")])
  | .ok raw0 =>
    let raw := if raw0 = "" then "\x7b\x7d" else raw0
    let parsed := parseModelOutput raw
    let txnOut := analyzeResumeTextTxn parsed fileID env.now s
    (.ok parsed, txnOut.1,
      warnLogs ++ txnOut.2 ++
        [("info", "Analysis saved in Firestore for file " ++ fileID ++ " " ++ filePath)])

/-- The regeneration request body destructured at index.js line 319; each
field may be absent (`undefined`). -/
structure GnaReq where
  fileID : Option String
  analysisID : Option String
  userRating : Option Int
  userComment : Option String

/-- External collaborators of generateNewAnalysis: the storage download plus
pdf-parse step (`.ok` = extracted text, with `|| ""` already absorbed since
the model is total on String), the generative model call, and the server
timestamp. -/
structure GnaEnv where
  download : Except String String
  modelOutcome : Except String String
  now : Nat

/-- Index.js lines 414-415: the new position is computed from a file-document
snapshot (`fileDoc.data().numAnalysis || 0` plus one).  The snapshot is the
plain `get` of line 340, performed before the transaction. -/
def gnaNewIndex (fileDoc : FileRec) : Nat :=
  fileDoc.numAnalysis.getD 0 + 1

/-- The transaction body of generateNewAnalysis (index.js lines 419-445).
It receives `newIndex`, `newAnalysisID` and the owner already computed from
the pre-transaction snapshot, performs no read of its own, and atomically:
updates the file document's `lastUpdate`, `numAnalysis` and
`analysis.{newIndex}` fields, creates the new analysis document with
`nextAnalysis = null`, and overwrites `nextAnalysis` of the document named
`analysisID`.  The two `update` calls fail the transaction when their target
document does not exist, which the handler's catch turns into a 500. -/
def generateNewAnalysisTxn (fileID analysisID : String) (newIndex : Nat)
    (newAnalysisID : String) (parsed : Json) (snapshotOwner : Option String)
    (now : Nat) (s : Store) : Except String Store :=
  match alookup s.files fileID with
  | none => .error "NOT_FOUND: no document to update"
  | some fileDoc =>
    let fileDoc2 := { fileDoc with
      lastUpdate := now
      numAnalysis := some newIndex
      analysis := aset fileDoc.analysis newIndex newAnalysisID }
    let newRec : AnalysisRec := {
      owner := snapshotOwner
      fileID := fileID
      content := parsed
      generateTime := now
      model := GENERATION_MODEL
      userRating := none
      userComment := none
      nextAnalysis := none }
    match alookup s.analyses analysisID with
    | none => .error "NOT_FOUND: no document to update"
    | some prevRec =>
      .ok { s with
        files := aset s.files fileID fileDoc2
        analyses :=
          aset (aset s.analyses newAnalysisID newRec) analysisID
            { prevRec with nextAnalysis := some newAnalysisID } }

/-- generateNewAnalysis (index.js lines 316-454).  Steps: truthiness
validation of the four body fields; plain reads of the prior analysis and of
the file document (both outside any transaction); extraction of the stored
PDF text; the model call with the `{rawText}`-fallback parse; computation of
`newIndex`/`newAnalysisID` from the pre-transaction file snapshot; the
versioning transaction; the 200 response carrying `newAnalysisID`.  Any
thrown step surfaces as a 500 via the catch (which also logs).  The
`!fileDoc.exists` re-check of line 409 repeats the check of line 341 on the
same snapshot and is therefore unreachable. -/
def generateNewAnalysis (req : GnaReq) (env : GnaEnv) (s : Store) :
    HRes × Store × List LogEntry :=
  if !(truthyOptStr req.fileID && truthyOptStr req.analysisID &&
       truthyOptInt req.userRating && truthyOptStr req.userComment) then
    (⟨400, Json.obj [("error", Json.str "Missing required parameters.")]⟩, s, [])
  else
    let fileID := req.fileID.getD ""
    let analysisID := req.analysisID.getD ""
    match alookup s.analyses analysisID with
    | none => (⟨404, Json.obj [("error", Json.str "Analysis document not found.")]⟩, s, [])
    | some _analysisData =>
      match alookup s.files fileID with
      | none => (⟨404, Json.obj [("error", Json.str "File document not found.")]⟩, s, [])
      | some fileDoc =>
        if !(truthyOptStr fileDoc.path) then
          (⟨400, Json.obj [("error", Json.str "File path not found in document.")]⟩, s, [])
        else
          match env.download with
          | .error e =>
            (⟨500, Json.obj [("error", Json.str e)]⟩, s, [("error", "Detailed error:")])
          | .ok _text =>
            match env.modelOutcome with
            | .error e =>
              (⟨500, Json.obj [("error", Json.str e)]⟩, s, [("error", "Detailed error:")])
            | .ok raw0 =>
              let raw := if raw0 = "" then "\x7b\x7d" else raw0
              let parsed := parseModelOutput raw
              let newIndex := gnaNewIndex fileDoc
              let newAnalysisID := fileID ++ "-" ++ toString newIndex
              match generateNewAnalysisTxn fileID analysisID newIndex newAnalysisID
                  parsed fileDoc.owner env.now s with
              | .error e =>
                (⟨500, Json.obj [("error", Json.str e)]⟩, s, [("error", "Detailed error:")])
              | .ok s2 =>
                (⟨200, Json.obj [("newAnalysisID", Json.str newAnalysisID)]⟩, s2, [])

/-- An education entry of the generatePdf request body. -/
structure EduEntry where
  schoolName : Option String
  duration : Option String
  descriptions : Option (List String)

/-- A work-experience entry of the generatePdf request body. -/
structure WorkEntry where
  company : Option String
  position : Option String
  duration : Option String
  descriptions : Option (List String)

/-- A project-experience entry of the generatePdf request body. -/
structure ProjEntry where
  name : Option String
  duration : Option String
  descriptions : Option (List String)

/-- The generatePdf request body (index.js lines 464-468); every field may be
absent (`undefined`), the default for a field not supplied by the caller. -/
structure PdfReq where
  name : Option String := none
  phone : Option String := none
  email : Option String := none
  summary : Option String := none
  education : Option (List EduEntry) := none
  workExperience : Option (List WorkEntry) := none
  projectExperience : Option (List ProjEntry) := none
  skills : Option (List String) := none
  publications : Option (List String) := none
  title : Option String := none
  pageSize : Option String := none
  margins : Option String := none
  fontFamily : Option String := none
  lineHeight : Option Json := none
  headerHtml : Option String := none
  footerHtml : Option String := none
  pageNumbers : Option Bool := none
  userId : Option String := none
  resumeId : Option String := none
  versionId : Option String := none

/-- Bullet lines `• ${desc}\n` appended for a present nonempty description
list. -/
def bulletLines : Option (List String) → String
  | some ds =>
      if ds.length > 0 then String.join (ds.map (fun d => "• " ++ d ++ "\n")) else ""
  | none => ""

/-- One EDUCATION block line group. -/
def eduLines (edu : EduEntry) : String :=
  edu.schoolName.getD "" ++ " - " ++ edu.duration.getD "" ++ "\n" ++
    bulletLines edu.descriptions ++ "\n"

/-- One WORK EXPERIENCE block line group. -/
def workLines (work : WorkEntry) : String :=
  work.company.getD "" ++ " - " ++ work.position.getD "" ++ " (" ++
    work.duration.getD "" ++ ")\n" ++ bulletLines work.descriptions ++ "\n"

/-- One PROJECTS block line group. -/
def projLines (project : ProjEntry) : String :=
  project.name.getD "" ++ " - " ++ project.duration.getD "" ++ "\n" ++
    bulletLines project.descriptions ++ "\n"

/-- Step 2 of generatePdf (index.js lines 476-524): assemble the plain resume
text from the structured fields. -/
def buildResumeText (req : PdfReq) : String :=
  let t1 := if truthyOptStr req.name then req.name.getD "" ++ "\n" else ""
  let t2 := t1 ++ (if truthyOptStr req.phone then "Phone: " ++ req.phone.getD "" ++ "\n" else "")
  let t3 := t2 ++ (if truthyOptStr req.email then "Email: " ++ req.email.getD "" ++ "\n\n" else "")
  let t4 := t3 ++ (if truthyOptStr req.summary then "SUMMARY\n" ++ req.summary.getD "" ++ "\n\n" else "")
  let t5 := t4 ++ (match req.education with
    | some es => if es.length > 0 then "EDUCATION\n" ++ String.join (es.map eduLines) else ""
    | none => "")
  let t6 := t5 ++ (match req.workExperience with
    | some ws => if ws.length > 0 then "WORK EXPERIENCE\n" ++ String.join (ws.map workLines) else ""
    | none => "")
  let t7 := t6 ++ (match req.projectExperience with
    | some ps => if ps.length > 0 then "PROJECTS\n" ++ String.join (ps.map projLines) else ""
    | none => "")
  let t8 := t7 ++ (match req.skills with
    | some ks => if ks.length > 0 then "SKILLS\n" ++ String.intercalate ", " ks ++ "\n\n" else ""
    | none => "")
  t8 ++ (match req.publications with
    | some ps =>
        if ps.length > 0 then "PUBLICATIONS\n" ++ String.join (ps.map (fun p => "• " ++ p ++ "\n"))
        else ""
    | none => "")

/-- `aiResponse.enhanced_text || resumeText` (index.js line 613). -/
def enhancedTextOr (aiResponse : Json) (resumeText : String) : Json :=
  match jget aiResponse "enhanced_text" with
  | some v => if jsTruthy v then v else Json.str resumeText
  | none => Json.str resumeText

/-- The reference to the rendered artifact returned by the rendering
service. -/
structure PdfData where
  pdf_url : String
  gcs_uri : String
  page_count : Option Nat
  bytes : Option Nat
  title : String
  rendered_at : String

/-- External collaborators of generatePdf: the step-3 generative model call,
the timestamp already formatted for the file name, the rendering service
response (`renderOk` = `pdfResponse.ok`, with the error body text), the
fetched artifact metadata, the store-assigned fresh file document id, the
model call made by the best-effort analysis step, and the server
timestamp. -/
structure PdfEnv where
  genModelOutcome : Except String String
  timestamp : String
  renderOk : Bool
  renderErrorText : String
  pdfData : PdfData
  newFileID : String
  analysisModelOutcome : Except String String
  now : Nat

/-- Serialize an optional count as the response does (`|| null`). -/
def jsonOptNat : Option Nat → Json
  | some n => Json.num (toString n)
  | none => Json.null

/-- The metadata-commit transaction of generatePdf (index.js lines 711-757):
create the file document with zeroed counters, arrayUnion the fresh id into
the owner's `files` list (an `update` that fails the transaction when the
user document is missing), and, when both lineage ids are supplied, merge the
version metadata document. -/
def pdfMetaTxn (userId pdfTitle filePath : String) (resumeId versionId : Option String)
    (pdfData : PdfData) (payload : McpPayload) (newFileID : String) (now : Nat)
    (s : Store) : Except String Store :=
  let fileRec : FileRec := {
    owner := some userId
    path := some filePath
    numAnalysis := some 0
    analysis := []
    filename := pdfTitle
    ftype := "Generated"
    lastUpdate := now
    uploadDate := now }
  match alookup s.users userId with
  | none => .error "NOT_FOUND: no document to update"
  | some userFiles =>
    let userFiles2 := if newFileID ∈ userFiles then userFiles else userFiles ++ [newFileID]
    let s1 := { s with
      files := aset s.files newFileID fileRec
      users := aset s.users userId userFiles2 }
    if truthyOptStr resumeId && truthyOptStr versionId then
      let meta : VersionMeta := {
        pdf_url := pdfData.pdf_url
        gcs_uri := pdfData.gcs_uri
        firebase_path := filePath
        fileID := newFileID
        generated_at := now
        page_count := pdfData.page_count
        bytes := pdfData.bytes
        title := pdfData.title
        generation_params := payload }
      .ok { s1 with
        versions := aset s1.versions (userId, resumeId.getD "", versionId.getD "") meta }
    else .ok s1

/-- generatePdf (index.js lines 461-785).  Steps: validation; resume text
assembly; the model call with the `{rawText}`-fallback parse; file naming
from the title and timestamp; the MCP payload with its defaults; the
rendering call, whose non-2xx response aborts with a 500 carrying the
upstream error body before any Firestore write; the blob save; the
metadata-commit transaction; the best-effort analysis step whose failure is
logged and swallowed; the 200 response carrying the new file id. -/
def generatePdf (req : PdfReq) (env : PdfEnv) (s : Store) :
    HRes × Store × List LogEntry :=
  if !(truthyOptStr req.userId && (truthyOptStr req.name || truthyOptStr req.summary)) then
    (⟨400, Json.obj [("error",
        Json.str "Missing required parameters: userId and resume content (name or summary).")]⟩,
      s, [])
  else
    let userId := req.userId.getD ""
    let resumeText := buildResumeText req
    match env.genModelOutcome with
    | .error e => (⟨500, Json.obj [("error", Json.str e)]⟩, s, [("error", "generatePdf error:")])
    | .ok raw0 =>
      let raw := if raw0 = "" then "\x7b\x7d" else raw0
      let aiResponse := parseModelOutput raw
      let pdfTitle := if truthyOptStr req.title then req.title.getD "" else "Resume"
      let fileName := pdfTitle ++ "-" ++ env.timestamp ++ ".pdf"
      let filePath := userId ++ "/" ++ fileName
      let payload : McpPayload := {
        text := enhancedTextOr aiResponse resumeText
        title := pdfTitle
        pageSize := if truthyOptStr req.pageSize then req.pageSize.getD "" else "Letter"
        margins := if truthyOptStr req.margins then req.margins.getD "" else "36px"
        fontFamily := if truthyOptStr req.fontFamily then req.fontFamily.getD ""
          else "Inter, system-ui, -apple-system, Arial, sans-serif"
        lineHeight := match req.lineHeight with
          | some v => if jsTruthy v then v else Json.num "1.5"
          | none => Json.num "1.5"
        headerHtml := if truthyOptStr req.headerHtml then req.headerHtml.getD "" else ""
        footerHtml := if truthyOptStr req.footerHtml then req.footerHtml.getD "" else ""
        pageNumbers := req.pageNumbers != some false }
      if !env.renderOk then
        (⟨500, Json.obj [("error", Json.str "PDF generation failed"),
            ("detail", Json.str env.renderErrorText)]⟩, s,
          [("error", "PDF generation failed")])
      else
        let d := env.pdfData
        let saveLogs : List LogEntry := [("info", "PDF saved to Firebase Storage: " ++ filePath)]
        match pdfMetaTxn userId pdfTitle filePath req.resumeId req.versionId d payload
            env.newFileID env.now s with
        | .error e =>
          (⟨500, Json.obj [("error", Json.str e)]⟩, s, saveLogs ++ [("error", "generatePdf error:")])
        | .ok s1 =>
          let fileID := env.newFileID
          let artOut := analyzeResumeText resumeText fileID filePath
            ⟨env.analysisModelOutcome, env.now⟩ s1
          let stepLogs : List LogEntry := match artOut.1 with
            | .ok _ => [("info", "Analysis completed for generated resume")]
            | .error _ => [("error", "Failed to analyze generated resume:")]
          (⟨200, Json.obj [
              ("success", Json.bool true),
              ("pdf_url", Json.str d.pdf_url),
              ("firebase_path", Json.str filePath),
              ("gcs_uri", Json.str d.gcs_uri),
              ("page_count", jsonOptNat d.page_count),
              ("bytes", jsonOptNat d.bytes),
              ("title", Json.str d.title),
              ("rendered_at", Json.str d.rendered_at),
              ("fileID", Json.str fileID)]⟩,
            artOut.2.1, saveLogs ++ artOut.2.2 ++ stepLogs)

/-- One analyzeResumeText versioning transaction, as the store applies it
atomically (the log output projected away); `op` carries the parsed content
and the server timestamp of that invocation. -/
def artApply (fileID : String) (op : Json × Nat) (s : Store) : Store :=
  (analyzeResumeTextTxn op.1 fileID op.2 s).1

/-- A serialized execution of analyzeResumeText versioning transactions
against one Document.  Firestore runs transactions under optimistic
serializable isolation, so any concurrent execution of the transactions is
equivalent to applying them in some order. -/
def artRun (fileID : String) (ops : List (Json × Nat)) (s : Store) : Store :=
  ops.foldl (fun st op => artApply fileID op st) s

/-- The version index holding exactly positions 1..n with their derived
analysis ids. -/
def versionEntries (fileID : String) (n : Nat) : List (Nat × String) :=
  (List.range n).map (fun i => (i + 1, fileID ++ "-" ++ toString (i + 1)))

/-- A file document with one committed analysis, used by the contention
scenario. -/
def c1File : FileRec := {
  owner := some "u"
  path := some "p"
  numAnalysis := some 1
  analysis := [(1, "doc-1")]
  filename := "f"
  ftype := "Uploaded"
  lastUpdate := 0
  uploadDate := 0 }

/-- The head analysis of the contention scenario. -/
def c1Analysis : AnalysisRec := {
  owner := some "u"
  fileID := "doc"
  content := Json.null
  generateTime := 0
  model := GENERATION_MODEL
  userRating := none
  userComment := none
  nextAnalysis := none }

/-- The starting store of the contention scenario: one Document with one
analysis. -/
def c1Store : Store := {
  files := [("doc", c1File)]
  analyses := [("doc-1", c1Analysis)]
  users := [("u", ["doc"])]
  versions := [] }

/-- Two concurrent generateNewAnalysis invocations against `c1Store`, both
naming the head `doc-1`: each performs its plain file-document `get`
(index.js line 340) before either transaction commits, so both compute
`newIndex = 2` and `newAnalysisID = "doc-2"` from the same snapshot
(`gnaNewIndex c1File`); the store then serializes their transactions one
after the other.  The result is the store after both invocations settle. -/
def c1Schedule : Option Store :=
  match generateNewAnalysisTxn "doc" "doc-1" (gnaNewIndex c1File) "doc-2"
      Json.null (some "u") 1 c1Store with
  | .ok s1 =>
    (generateNewAnalysisTxn "doc" "doc-1" (gnaNewIndex c1File) "doc-2"
        Json.null (some "u") 2 s1).toOption
  | .error _ => none

/-- The file-document snapshot taken by a generateNewAnalysis call before
its transaction, in a run where the Document held no analysis yet. -/
def c2SnapFile : FileRec := {
  owner := some "u"
  path := some "p"
  numAnalysis := some 1
  analysis := [(1, "doc-1")]
  filename := "f"
  ftype := "Uploaded"
  lastUpdate := 0
  uploadDate := 0 }

/-- The store at the moment the transaction of that call executes: between
the snapshot and the commit, other committed transactions have raised the
Document's count to 5. -/
def c2TxnStore : Store := {
  files := [("doc", { c2SnapFile with numAnalysis := some 5 })]
  analyses := [("doc-1", c1Analysis)]
  users := [("u", ["doc"])]
  versions := [] }

/-- The store committed by the transaction of that call: its `newIndex` and
`newAnalysisID` come from the stale snapshot `c2SnapFile`. -/
def c2Committed : Store :=
  ((generateNewAnalysisTxn "doc" "doc-1" (gnaNewIndex c2SnapFile) "doc-2" Json.null
      (some "u") 7 c2TxnStore).toOption).getD c2TxnStore

/-- A Document with a chain of length 2 (positions 1 and 2; `doc-1` already
superseded by `doc-2`). -/
def c3File : FileRec := {
  owner := some "u"
  path := some "p"
  numAnalysis := some 2
  analysis := [(1, "doc-1"), (2, "doc-2")]
  filename := "f"
  ftype := "Uploaded"
  lastUpdate := 0
  uploadDate := 0 }

/-- The store of the stale-predecessor scenario. -/
def c3Store : Store := {
  files := [("doc", c3File)]
  analyses :=
    [("doc-1", { c1Analysis with nextAnalysis := some "doc-2" }),
     ("doc-2", c1Analysis)]
  users := [("u", ["doc"])]
  versions := [] }

/-- A regeneration request naming the position-1 analysis, which is not the
current head. -/
def c3Req : GnaReq := {
  fileID := some "doc"
  analysisID := some "doc-1"
  userRating := some 4
  userComment := some "c" }

/-- A benign environment for the stale-predecessor scenario. -/
def c3Env : GnaEnv := {
  download := .ok "resume text"
  modelOutcome := .ok "model output"
  now := 9 }

/-- The stale-predecessor run. -/
def c3Run : HRes × Store × List LogEntry :=
  generateNewAnalysis c3Req c3Env c3Store

/-- A fresh Document with no analyses, for the chain-rewriting scenario. -/
def freshDocStore : Store := {
  files := [("doc", { c1File with numAnalysis := some 0, analysis := [] })]
  analyses := []
  users := [("u", ["doc"])]
  versions := [] }

/-- Step 1 of the chain-rewriting scenario: analyzeResumeText creates
`doc-1`. -/
def c4S1 : Store :=
  (analyzeResumeText "extracted resume text" "doc" "p" ⟨.ok "first", 1⟩ freshDocStore).2.1

/-- Step 2: a regeneration naming `doc-1` (the head) creates `doc-2` and
sets `doc-1.nextAnalysis = "doc-2"`. -/
def c4S2 : Store :=
  (generateNewAnalysis ⟨some "doc", some "doc-1", some 5, some "needs work"⟩
    ⟨.ok "text", .ok "second", 2⟩ c4S1).2.1

/-- Step 3: a second regeneration naming `doc-1` again (now stale) creates
`doc-3` and overwrites `doc-1.nextAnalysis`. -/
def c4S3 : Store :=
  (generateNewAnalysis ⟨some "doc", some "doc-1", some 4, some "again"⟩
    ⟨.ok "text", .ok "third", 3⟩ c4S2).2.1

/-- The empty store. -/
def emptyStore : Store := { files := [], analyses := [], users := [], versions := [] }

/-- The store committed by a regeneration transaction run against `c3Store`
naming `doc-1` as predecessor (snapshot count 2, so position 3). -/
def c4Committed : Store :=
  ((generateNewAnalysisTxn "doc" "doc-1" 3 "doc-3" Json.null (some "u") 4
      c3Store).toOption).getD c3Store

/-- A minimal valid generatePdf request. -/
def c6Req : PdfReq := { userId := some "u", name := some "Jane Doe" }

/-- A generatePdf environment whose rendering call returns a non-2xx
response. -/
def c6Env : PdfEnv := {
  genModelOutcome := .ok "irrelevant"
  timestamp := "2026-01-01-00-00-00-000"
  renderOk := false
  renderErrorText := "upstream exploded"
  pdfData := ⟨"url", "gcs", none, none, "T", "at"⟩
  newFileID := "nf"
  analysisModelOutcome := .ok "x"
  now := 0 }

/-- A generatePdf environment where everything succeeds through the metadata
commit but the best-effort analysis model call fails. -/
def c7Env : PdfEnv := {
  genModelOutcome := .ok "irrelevant"
  timestamp := "2026-01-01-00-00-00-000"
  renderOk := true
  renderErrorText := ""
  pdfData := ⟨"url", "gcs", some 1, some 2048, "T", "at"⟩
  newFileID := "nf"
  analysisModelOutcome := .error "model down"
  now := 5 }

/-- A store holding the requesting user and no analyses. -/
def c7Store : Store := { files := [], analyses := [], users := [("u", ["old"])], versions := [] }

/-! Helper lemmas about the association-list store. -/

theorem alookup_aset_self {α β : Type} [DecidableEq α] (l : List (α × β)) (k : α) (v : β) :
    alookup (aset l k v) k = some v := by
  induction l with
  | nil => simp [aset, alookup]
  | cons p rest ih =>
    obtain ⟨a, b⟩ := p
    by_cases h : a = k <;> simp [aset, alookup, h, ih]

theorem alookup_aset_ne {α β : Type} [DecidableEq α] (l : List (α × β)) (k k2 : α) (v : β)
    (h : k2 ≠ k) : alookup (aset l k v) k2 = alookup l k2 := by
  induction l with
  | nil => simp [aset, alookup, Ne.symm h]
  | cons p rest ih =>
    obtain ⟨a, b⟩ := p
    by_cases ha : a = k
    · subst ha
      simp [aset, alookup, Ne.symm h]
    · simp [aset, alookup, ha, ih]

theorem aset_of_forall_ne {α β : Type} [DecidableEq α] (l : List (α × β)) (k : α) (v : β)
    (h : ∀ p ∈ l, p.1 ≠ k) : aset l k v = l ++ [(k, v)] := by
  induction l with
  | nil => rfl
  | cons p rest ih =>
    obtain ⟨a, b⟩ := p
    have ha : a ≠ k := h (a, b) (List.mem_cons_self _ _)
    simp only [aset, if_neg ha, List.cons_append, List.cons.injEq, true_and]
    exact ih (fun q hq => h q (List.mem_cons_of_mem _ hq))

theorem versionEntries_succ (fileID : String) (n : Nat) :
    versionEntries fileID (n + 1) =
      versionEntries fileID n ++ [(n + 1, fileID ++ "-" ++ toString (n + 1))] := by
  simp [versionEntries, List.range_succ]

theorem versionEntries_key_ne (fileID : String) (n : Nat) :
    ∀ p ∈ versionEntries fileID n, p.1 ≠ n + 1 := by
  intro p hp
  simp only [versionEntries, List.mem_map, List.mem_range] at hp
  obtain ⟨i, hi, rfl⟩ := hp
  simp only []
  omega

/-- The serialized-transactions invariant of the analyzeResumeText versioning
transaction: from a Document holding positions 1..k, any run of further
transactions extends the index contiguously, each transaction reading the
then-current count inside itself. -/
theorem artRun_invariant (fileID : String) (ops : List (Json × Nat)) :
    ∀ (s : Store) (f : FileRec) (k : Nat),
      alookup s.files fileID = some f →
      f.numAnalysis = some k →
      f.analysis = versionEntries fileID k →
      ∃ g : FileRec, alookup (artRun fileID ops s).files fileID = some g ∧
        g.numAnalysis = some (k + ops.length) ∧
        g.analysis = versionEntries fileID (k + ops.length) := by
  induction ops with
  | nil =>
    intro s f k hf h1 h2
    exact ⟨f, by simpa [artRun] using hf, by simpa using h1, by simpa using h2⟩
  | cons op rest ih =>
    intro s f k hf h1 h2
    have hstep : artApply fileID op s =
        { s with
          files := aset s.files fileID
            { f with
              lastUpdate := op.2
              numAnalysis := some (k + 1)
              analysis := aset f.analysis (k + 1) (fileID ++ "-" ++ toString (k + 1)) }
          analyses := aset s.analyses (fileID ++ "-" ++ toString (k + 1))
            { owner := some (f.owner.getD "")
              fileID := fileID
              content := op.1
              generateTime := op.2
              model := GENERATION_MODEL
              userRating := none
              userComment := none
              nextAnalysis := none } } := by
      simp [artApply, analyzeResumeTextTxn, hf, h1]
    have hanalysis : aset f.analysis (k + 1) (fileID ++ "-" ++ toString (k + 1)) =
        versionEntries fileID (k + 1) := by
      rw [h2, aset_of_forall_ne _ _ _ (versionEntries_key_ne fileID k),
        versionEntries_succ]
    have hrun : artRun fileID (op :: rest) s = artRun fileID rest (artApply fileID op s) := by
      simp [artRun, List.foldl_cons]
    obtain ⟨g, hg1, hg2, hg3⟩ := ih (artApply fileID op s)
      { f with
        lastUpdate := op.2
        numAnalysis := some (k + 1)
        analysis := aset f.analysis (k + 1) (fileID ++ "-" ++ toString (k + 1)) }
      (k + 1) (by rw [hstep]; exact alookup_aset_self _ _ _) rfl (by simpa using hanalysis)
    refine ⟨g, by rwa [hrun], ?_, ?_⟩
    · rw [hg2]; congr 1; simp; omega
    · rw [hg3]; congr 1; simp; omega

/-- C1 (counterexample): two concurrent generateNewAnalysis invocations
against the same Document are BOTH assigned position 2.  Each call performs
its plain file-document read (index.js line 340) before either transaction
commits, so both compute `gnaNewIndex = 2` and `newAnalysisID = "doc-2"`
from the same snapshot; the serialized transactions then both write position
2.  After both settle, `numAnalysis` is 2 although position 1 existed and
two appends ran (one increment lost), and only one new analysis record
exists (`analyses` holds 2 records in total): the same position was assigned
to both invocations, refuting the claim. -/
theorem c1_concurrent_lost_update_counterexample :
    (alookup c1Store.files "doc").map gnaNewIndex = some 2 ∧
    (c1Schedule.map fun st => (alookup st.files "doc").map fun f => f.numAnalysis) =
      some (some (some 2)) ∧
    (c1Schedule.map fun st => st.analyses.length) = some 2 :=
  ⟨rfl, rfl, rfl⟩

/-- C1 (amended): the no-lost-update property does hold for the
analyzeResumeText versioning transactions, which re-read `numAnalysis`
inside the transaction: any serialized execution of N such transactions
against a Document starting at count 0 leaves `analysisCount = N` and a
version index holding exactly positions 1..N, each assigned once.  (The
generateNewAnalysis path computes its position from a pre-transaction
snapshot and violates the property, per the counterexample.) -/
theorem analyzeResumeText_concurrent_appends_ok (fileID : String)
    (ops : List (Json × Nat)) (s : Store) (f : FileRec)
    (hf : alookup s.files fileID = some f)
    (h0 : f.numAnalysis = some 0) (ha : f.analysis = []) :
    ∃ g : FileRec, alookup (artRun fileID ops s).files fileID = some g ∧
      g.numAnalysis = some ops.length ∧
      g.analysis = versionEntries fileID ops.length := by
  have h := artRun_invariant fileID ops s f 0 hf h0 (by simpa [versionEntries] using ha)
  simpa using h

/-- Witness for the C1 amended theorem: two serialized transactions against
a fresh Document yield count 2 and the version index 1..2. -/
theorem analyzeResumeText_concurrent_appends_ok_witness :
    ∃ g : FileRec,
      alookup (artRun "doc" [(Json.null, 1), (Json.null, 2)] freshDocStore).files "doc" =
        some g ∧
      g.numAnalysis = some 2 ∧
      g.analysis = versionEntries "doc" 2 := by
  have h := analyzeResumeText_concurrent_appends_ok "doc" [(Json.null, 1), (Json.null, 2)]
    freshDocStore { c1File with numAnalysis := some 0, analysis := [] } rfl rfl rfl
  simpa using h

/-- C2 (counterexample): generateNewAnalysis does not obtain the count it
increments from a read inside its transaction.  The call's snapshot
(`c2SnapFile`, taken by the plain get of index.js line 340) shows count 1,
so it computes `newIndex = 2`; by the time its transaction executes, other
committed transactions have raised the Document's count to 5
(`c2TxnStore`), yet the transaction commits count 2 - not 6, the value an
authoritative in-transaction read would have produced. -/
theorem c2_pre_transaction_snapshot_counterexample :
    gnaNewIndex c2SnapFile = 2 ∧
    ((alookup c2TxnStore.files "doc").map fun f => f.numAnalysis) = some (some 5) ∧
    ((alookup c2Committed.files "doc").map fun f => f.numAnalysis) = some (some 2) ∧
    ((alookup c2Committed.files "doc").map fun f => f.numAnalysis) ≠ some (some (5 + 1)) :=
  ⟨rfl, rfl, rfl, by decide⟩

/-- C2 (amended): analyzeResumeText obtains the `numAnalysis` it increments
from a read performed within the transaction that writes it - for every
store, its transaction commits the in-transaction count plus one.
generateNewAnalysis instead commits the `newIndex` computed from its
pre-transaction snapshot, whatever count the store holds when the
transaction executes. -/
theorem versioning_txn_read_source (parsed : Json) (fileID analysisID : String)
    (now : Nat) (s : Store) (f : FileRec) (newIndex : Nat) (newAnalysisID : String)
    (snapshotOwner : Option String) (s2 s3 : Store)
    (hf : alookup s.files fileID = some f)
    (htxn : generateNewAnalysisTxn fileID analysisID newIndex newAnalysisID parsed
        snapshotOwner now s2 = .ok s3) :
    ((alookup (analyzeResumeTextTxn parsed fileID now s).1.files fileID).map
        fun g => g.numAnalysis) = some (some (f.numAnalysis.getD 0 + 1)) ∧
    ((alookup s3.files fileID).map fun g => g.numAnalysis) = some (some newIndex) := by
  constructor
  · simp [analyzeResumeTextTxn, hf, alookup_aset_self]
  · unfold generateNewAnalysisTxn at htxn
    cases h1 : alookup s2.files fileID with
    | none => rw [h1] at htxn; exact absurd htxn (by simp)
    | some fd =>
      rw [h1] at htxn
      cases h2 : alookup s2.analyses analysisID with
      | none => rw [h2] at htxn; exact absurd htxn (by simp)
      | some prev =>
        rw [h2] at htxn
        cases htxn
        simp [alookup_aset_self]

/-- Witness for the C2 amended theorem, at the concrete contention
scenario. -/
theorem versioning_txn_read_source_witness :
    ((alookup (analyzeResumeTextTxn Json.null "doc" 7 c1Store).1.files "doc").map
        fun g => g.numAnalysis) = some (some 2) ∧
    ((alookup c2Committed.files "doc").map fun g => g.numAnalysis) = some (some 2) :=
  versioning_txn_read_source Json.null "doc" "doc-1" 7 c1Store c1File 2 "doc-2"
    (some "u") c2TxnStore c2Committed rfl rfl

/-- C3 (counterexample): in a chain of length 2 (`doc-1` superseded by
`doc-2`), a generateNewAnalysis call naming `doc-1` - not the current head -
does not fail with Conflict: it succeeds with status 200 and mutates the
store, overwriting the predecessor's already-set `nextAnalysis` from
`doc-2` to the freshly allocated `doc-3`. -/
theorem c3_stale_predecessor_accepted_counterexample :
    c3Run.1.status = 200 ∧
    ((alookup c3Store.analyses "doc-1").map fun a => a.nextAnalysis) = some (some "doc-2") ∧
    ((alookup c3Run.2.1.analyses "doc-1").map fun a => a.nextAnalysis) = some (some "doc-3") :=
  ⟨rfl, rfl, rfl⟩

/-- C3 (amended): the only predecessor validation generateNewAnalysis
performs is existence: a `predecessorAnalysisID` that does not exist fails
with 404 and leaves the store unchanged, while an existing predecessor that
is not the current head is accepted (its `nextAnalysis` is overwritten, per
the counterexample). -/
theorem generateNewAnalysis_missing_predecessor_404 (req : GnaReq) (env : GnaEnv)
    (s : Store)
    (hok : (truthyOptStr req.fileID && truthyOptStr req.analysisID &&
        truthyOptInt req.userRating && truthyOptStr req.userComment) = true)
    (hnone : alookup s.analyses (req.analysisID.getD "") = none) :
    generateNewAnalysis req env s =
      (⟨404, Json.obj [("error", Json.str "Analysis document not found.")]⟩, s, []) := by
  simp only [generateNewAnalysis, hok, Bool.not_true, Bool.false_eq_true, if_false, hnone]

/-- Witness for the C3 amended theorem: a nonexistent predecessor id is
rejected with 404 and no write. -/
theorem generateNewAnalysis_missing_predecessor_404_witness :
    generateNewAnalysis ⟨some "doc", some "nope", some 3, some "c"⟩ c3Env freshDocStore =
      (⟨404, Json.obj [("error", Json.str "Analysis document not found.")]⟩,
        freshDocStore, []) :=
  generateNewAnalysis_missing_predecessor_404 ⟨some "doc", some "nope", some 3, some "c"⟩
    c3Env freshDocStore rfl rfl

/-- C4 (counterexample): `nextAnalysis` is not immutable once set.  Built
entirely from core operations: analyzeResumeText creates `doc-1`; a
regeneration naming `doc-1` creates `doc-2` and sets
`doc-1.nextAnalysis = "doc-2"`; a second regeneration naming `doc-1` again
creates `doc-3` and changes the already-set field to `"doc-3"`, rewriting
the chain. -/
theorem c4_nextAnalysis_rewritten_counterexample :
    ((alookup c4S2.analyses "doc-1").map fun a => a.nextAnalysis) = some (some "doc-2") ∧
    ((alookup c4S3.analyses "doc-1").map fun a => a.nextAnalysis) = some (some "doc-3") :=
  ⟨rfl, rfl⟩

/-- C4 (amended): what the operations do preserve: neither versioning
transaction touches any analysis record other than the newly allocated
`{fileID}-{newPosition}` document and (for generateNewAnalysis) the named
predecessor.  A record's `nextAnalysis`, once set, is changed again exactly
when a later call names that same record as predecessor. -/
theorem nextAnalysis_changed_only_for_predecessor_or_new
    (parsed : Json) (fileID : String) (now : Nat) (s : Store) (f : FileRec)
    (analysisID newAnalysisID : String) (newIndex : Nat) (snapshotOwner : Option String)
    (s2 s3 : Store) (id : String) (a a2 : AnalysisRec)
    (hf : alookup s.files fileID = some f)
    (hid : alookup s.analyses id = some a)
    (hne : id ≠ fileID ++ "-" ++ toString (f.numAnalysis.getD 0 + 1))
    (htxn : generateNewAnalysisTxn fileID analysisID newIndex newAnalysisID parsed
        snapshotOwner now s2 = .ok s3)
    (hid2 : alookup s2.analyses id = some a2)
    (hne1 : id ≠ analysisID) (hne2 : id ≠ newAnalysisID) :
    alookup (analyzeResumeTextTxn parsed fileID now s).1.analyses id = some a ∧
    alookup s3.analyses id = some a2 := by
  constructor
  · simp only [analyzeResumeTextTxn, hf]
    rw [alookup_aset_ne _ _ _ _ hne]
    exact hid
  · unfold generateNewAnalysisTxn at htxn
    cases h1 : alookup s2.files fileID with
    | none => rw [h1] at htxn; exact absurd htxn (by simp)
    | some fd =>
      rw [h1] at htxn
      cases h2 : alookup s2.analyses analysisID with
      | none => rw [h2] at htxn; exact absurd htxn (by simp)
      | some prev =>
        rw [h2] at htxn
        cases htxn
        rw [alookup_aset_ne _ _ _ _ hne1, alookup_aset_ne _ _ _ _ hne2]
        exact hid2

/-- Witness for the C4 amended theorem, at the stale-predecessor scenario:
the unrelated head record `doc-2` is untouched by both transactions. -/
theorem nextAnalysis_changed_only_for_predecessor_or_new_witness :
    alookup (analyzeResumeTextTxn Json.null "doc" 4 c3Store).1.analyses "doc-2" =
      some c1Analysis ∧
    alookup c4Committed.analyses "doc-2" = some c1Analysis :=
  nextAnalysis_changed_only_for_predecessor_or_new Json.null "doc" 4 c3Store c3File
    "doc-1" "doc-3" 3 (some "u") c3Store c4Committed "doc-2" c1Analysis c1Analysis
    rfl rfl (by decide) rfl rfl (by decide) (by decide)

/-- C5 (counterexample): analyzeResumeText invoked for a `fileID` with no
Document does not fail with NotFound: its transaction callback returns early,
the empty transaction commits, and the function returns the parsed result -
the success outcome - leaving the caller no error. -/
theorem c5_missing_document_reports_success_counterexample :
    (analyzeResumeText "short" "ghost" "p" ⟨.ok "not json", 0⟩ emptyStore).1 =
      .ok (Json.obj [("rawText", Json.str "not json")]) ∧
    (analyzeResumeText "short" "ghost" "p" ⟨.ok "not json", 0⟩ emptyStore).2.1 =
      emptyStore :=
  ⟨rfl, rfl⟩

/-- C5 (amended): an appendAnalysis invocation whose `documentID` references
no Document performs no writes in either handler; generateNewAnalysis does
fail with 404 NotFound, but analyzeResumeText only logs the missing-document
error and reports success, returning the parsed result. -/
theorem appendAnalysis_missing_document (req : GnaReq) (env : GnaEnv) (s : Store)
    (text fileID filePath raw : String) (aenv : ArtEnv) (arec : AnalysisRec)
    (hok : (truthyOptStr req.fileID && truthyOptStr req.analysisID &&
        truthyOptInt req.userRating && truthyOptStr req.userComment) = true)
    (hpred : alookup s.analyses (req.analysisID.getD "") = some arec)
    (hfile : alookup s.files (req.fileID.getD "") = none)
    (hmodel : aenv.modelOutcome = .ok raw)
    (hfile2 : alookup s.files fileID = none) :
    generateNewAnalysis req env s =
      (⟨404, Json.obj [("error", Json.str "File document not found.")]⟩, s, []) ∧
    (analyzeResumeText text fileID filePath aenv s).1 =
      .ok (parseModelOutput (if raw = "" then "\x7b\x7d" else raw)) ∧
    (analyzeResumeText text fileID filePath aenv s).2.1 = s ∧
    ("error", "File document not found for fileID: " ++ fileID) ∈
      (analyzeResumeText text fileID filePath aenv s).2.2 := by
  refine ⟨?_, ?_, ?_, ?_⟩
  · simp only [generateNewAnalysis, hok, Bool.not_true, Bool.false_eq_true, if_false,
      hpred, hfile]
  · simp [analyzeResumeText, hmodel, analyzeResumeTextTxn, hfile2]
  · simp [analyzeResumeText, hmodel, analyzeResumeTextTxn, hfile2]
  · simp [analyzeResumeText, hmodel, analyzeResumeTextTxn, hfile2]

/-- Witness for the C5 amended theorem, at a store holding a chain but not
the requested Documents. -/
theorem appendAnalysis_missing_document_witness :
    generateNewAnalysis ⟨some "ghost", some "doc-1", some 3, some "c"⟩ c3Env c3Store =
      (⟨404, Json.obj [("error", Json.str "File document not found.")]⟩, c3Store, []) ∧
    (analyzeResumeText "short" "phantom" "p" ⟨.ok "not json", 0⟩ c3Store).1 =
      .ok (parseModelOutput (if "not json" = "" then "\x7b\x7d" else "not json")) ∧
    (analyzeResumeText "short" "phantom" "p" ⟨.ok "not json", 0⟩ c3Store).2.1 = c3Store ∧
    ("error", "File document not found for fileID: " ++ "phantom") ∈
      (analyzeResumeText "short" "phantom" "p" ⟨.ok "not json", 0⟩ c3Store).2.2 :=
  appendAnalysis_missing_document ⟨some "ghost", some "doc-1", some 3, some "c"⟩ c3Env
    c3Store "short" "phantom" "p" "not json" ⟨.ok "not json", 0⟩
    { c1Analysis with nextAnalysis := some "doc-2" } rfl rfl rfl rfl rfl

/-- C6: a generatePdf run in which the rendering service returns a non-2xx
response aborts with the 500 rendering-failure error carrying the upstream
error body, leaves the store untouched (in particular, no Document record is
created - the metadata transaction never executes), and logs only the
rendering failure. -/
theorem generatePdf_render_failure_aborts (req : PdfReq) (env : PdfEnv) (s : Store)
    (raw : String)
    (hok : (truthyOptStr req.userId &&
        (truthyOptStr req.name || truthyOptStr req.summary)) = true)
    (hm : env.genModelOutcome = .ok raw)
    (hr : env.renderOk = false) :
    generatePdf req env s =
      (⟨500, Json.obj [("error", Json.str "PDF generation failed"),
          ("detail", Json.str env.renderErrorText)]⟩, s,
        [("error", "PDF generation failed")]) := by
  simp only [generatePdf, hok, Bool.not_true, Bool.false_eq_true, if_false, hm, hr,
    Bool.not_false, if_true]

/-- Witness for C6: a concrete minimal request against a failing renderer. -/
theorem generatePdf_render_failure_aborts_witness :
    generatePdf c6Req c6Env emptyStore =
      (⟨500, Json.obj [("error", Json.str "PDF generation failed"),
          ("detail", Json.str c6Env.renderErrorText)]⟩, emptyStore,
        [("error", "PDF generation failed")]) :=
  generatePdf_render_failure_aborts c6Req c6Env emptyStore "irrelevant" rfl rfl rfl

/-- The metadata-commit transaction never writes to the `analysis`
collection. -/
theorem pdfMetaTxn_analyses_unchanged (userId pdfTitle filePath : String)
    (resumeId versionId : Option String) (pdfData : PdfData) (payload : McpPayload)
    (newFileID : String) (now : Nat) (s s2 : Store)
    (h : pdfMetaTxn userId pdfTitle filePath resumeId versionId pdfData payload
        newFileID now s = .ok s2) :
    s2.analyses = s.analyses := by
  unfold pdfMetaTxn at h
  cases hu : alookup s.users userId with
  | none => rw [hu] at h; exact absurd h (by simp)
  | some uf =>
    rw [hu] at h
    dsimp only at h
    split at h <;> cases h <;> rfl

/-- C7: a generatePdf run that succeeds through the metadata commit but
whose best-effort analysis model call fails still responds 200 with a body
whose `fileID` is the new document id, logs the analysis failure, and leaves
zero Analysis records for that Document (given the store held none for the
fresh id, as store-assigned ids guarantee).  The step-6 failure never
reaches the caller-visible error path. -/
theorem generatePdf_best_effort_analysis_isolated (req : PdfReq) (env : PdfEnv)
    (s : Store) (raw e : String) (ufiles : List String)
    (hok : (truthyOptStr req.userId &&
        (truthyOptStr req.name || truthyOptStr req.summary)) = true)
    (hm : env.genModelOutcome = .ok raw)
    (hr : env.renderOk = true)
    (hu : alookup s.users (req.userId.getD "") = some ufiles)
    (ha : env.analysisModelOutcome = .error e)
    (hfresh : s.analyses.all (fun p => p.2.fileID != env.newFileID) = true) :
    (generatePdf req env s).1.status = 200 ∧
    jget (generatePdf req env s).1.body "fileID" = some (Json.str env.newFileID) ∧
    ("error", "Failed to analyze generated resume:") ∈ (generatePdf req env s).2.2 ∧
    (generatePdf req env s).2.1.analyses.all
      (fun p => p.2.fileID != env.newFileID) = true := by
  cases hmt : pdfMetaTxn (req.userId.getD "")
      (if truthyOptStr req.title then req.title.getD "" else "Resume")
      (req.userId.getD "" ++ "/" ++
        ((if truthyOptStr req.title then req.title.getD "" else "Resume") ++ "-" ++
          env.timestamp ++ ".pdf"))
      req.resumeId req.versionId env.pdfData
      { text := enhancedTextOr (parseModelOutput (if raw = "" then "\x7b\x7d" else raw))
          (buildResumeText req)
        title := if truthyOptStr req.title then req.title.getD "" else "Resume"
        pageSize := if truthyOptStr req.pageSize then req.pageSize.getD "" else "Letter"
        margins := if truthyOptStr req.margins then req.margins.getD "" else "36px"
        fontFamily := if truthyOptStr req.fontFamily then req.fontFamily.getD ""
          else "Inter, system-ui, -apple-system, Arial, sans-serif"
        lineHeight := match req.lineHeight with
          | some v => if jsTruthy v then v else Json.num "1.5"
          | none => Json.num "1.5"
        headerHtml := if truthyOptStr req.headerHtml then req.headerHtml.getD "" else ""
        footerHtml := if truthyOptStr req.footerHtml then req.footerHtml.getD "" else ""
        pageNumbers := req.pageNumbers != some false }
      env.newFileID env.now s with
  | error err =>
    exfalso
    unfold pdfMetaTxn at hmt
    rw [hu] at hmt
    dsimp only at hmt
    split at hmt <;> simp at hmt
  | ok s1 =>
    have hanal : s1.analyses = s.analyses :=
      pdfMetaTxn_analyses_unchanged _ _ _ _ _ _ _ _ _ _ _ hmt
    have hgen : generatePdf req env s =
        (⟨200, Json.obj [
            ("success", Json.bool true),
            ("pdf_url", Json.str env.pdfData.pdf_url),
            ("firebase_path", Json.str (req.userId.getD "" ++ "/" ++
              ((if truthyOptStr req.title then req.title.getD "" else "Resume") ++ "-" ++
                env.timestamp ++ ".pdf"))),
            ("gcs_uri", Json.str env.pdfData.gcs_uri),
            ("page_count", jsonOptNat env.pdfData.page_count),
            ("bytes", jsonOptNat env.pdfData.bytes),
            ("title", Json.str env.pdfData.title),
            ("rendered_at", Json.str env.pdfData.rendered_at),
            ("fileID", Json.str env.newFileID)]⟩,
          s1,
          [("info", "PDF saved to Firebase Storage: " ++ (req.userId.getD "" ++ "/" ++
            ((if truthyOptStr req.title then req.title.getD "" else "Resume") ++ "-" ++
              env.timestamp ++ ".pdf")))] ++
          ((if (buildResumeText req).trim.length < 100 then
              [("warn", "Resume text too short or empty.")] else []) ++
            [("error", "analyzeResumeText error:")]) ++
          [("error", "Failed to analyze generated resume:")]) := by
      simp only [generatePdf, hok, Bool.not_true, Bool.false_eq_true, if_false, hm, hr,
        Bool.not_true, if_false, hmt, analyzeResumeText, ha]
    rw [hgen]
    refine ⟨rfl, rfl, ?_, ?_⟩
    · simp
    · simpa [hanal] using hfresh

/-- Witness for C7: the concrete run where only the best-effort analysis
fails. -/
theorem generatePdf_best_effort_analysis_isolated_witness :
    (generatePdf c6Req c7Env c7Store).1.status = 200 ∧
    jget (generatePdf c6Req c7Env c7Store).1.body "fileID" = some (Json.str "nf") ∧
    ("error", "Failed to analyze generated resume:") ∈ (generatePdf c6Req c7Env c7Store).2.2 ∧
    (generatePdf c6Req c7Env c7Store).2.1.analyses.all
      (fun p => p.2.fileID != c7Env.newFileID) = true := by
  have h := generatePdf_best_effort_analysis_isolated c6Req c7Env c7Store "irrelevant"
    "model down" ["old"] rfl rfl rfl rfl rfl rfl
  exact ⟨h.1, h.2.1, h.2.2.1, h.2.2.2⟩

/-- C8: the model-output parse step is total by construction (a Lean
function of type String to Json, mirroring the catch-all that prevents any
throw): on the structured input it returns the decoded object with
`summary = "x"`, and on the non-JSON input it returns the fallback object
preserving the original text under `rawText`. -/
theorem parseModelOutput_total_concrete :
    parseModelOutput "\x7b\"summary\":\"x\"\x7d" = Json.obj [("summary", Json.str "x")] ∧
    parseModelOutput "not json" = Json.obj [("rawText", Json.str "not json")] :=
  ⟨rfl, rfl⟩

/-- C9 (counterexample): the structured/fallback distinction is not an
explicit tag.  The valid JSON input whose object itself holds a `rawText`
field parses on the success path, yet yields a value equal to the
failure-path fallback for the input `"not json"`: no component of the result
records which variant produced it, so the variant is only inferable from
field presence. -/
theorem c9_parse_untagged_collision_counterexample :
    (jsonParse "\x7b\"rawText\":\"not json\"\x7d").isSome = true ∧
    jsonParse "not json" = none ∧
    parseModelOutput "\x7b\"rawText\":\"not json\"\x7d" = parseModelOutput "not json" :=
  ⟨rfl, rfl, rfl⟩

/-- C9 (amended): the parse result is an untagged plain JSON value; on every
decode failure it is exactly the one-field object `{rawText: original}`, so
the fallback is recognizable only by that field's presence (and collides
with structured outputs of the same shape, per the counterexample). -/
theorem parseModelOutput_fallback_shape (s : String) (h : jsonParse s = none) :
    parseModelOutput s = Json.obj [("rawText", Json.str s)] := by
  simp [parseModelOutput, h]

/-- Witness for the C9 amended theorem at the non-JSON input. -/
theorem parseModelOutput_fallback_shape_witness :
    parseModelOutput "definitely not json" =
      Json.obj [("rawText", Json.str "definitely not json")] :=
  parseModelOutput_fallback_shape "definitely not json" rfl

/-- C10: a generateNewAnalysis request supplying all four parameters but
with `userRating = 0` or `userComment = ""` (present yet falsy) is rejected
with 400 "Missing required parameters."; for every environment and store the
handler returns that response with the store unchanged and no log, so no
store read, model call or write occurs. -/
theorem generateNewAnalysis_falsy_params_rejected (req : GnaReq) (env : GnaEnv)
    (s : Store) (h : req.userRating = some 0 ∨ req.userComment = some "") :
    generateNewAnalysis req env s =
      (⟨400, Json.obj [("error", Json.str "Missing required parameters.")]⟩, s, []) := by
  have hguard : (truthyOptStr req.fileID && truthyOptStr req.analysisID &&
      truthyOptInt req.userRating && truthyOptStr req.userComment) = false := by
    rcases h with h | h <;> rw [h] <;> simp [truthyOptInt, truthyOptStr]
  simp [generateNewAnalysis, hguard]

/-- Witness for C10: a request with every field present but a zero rating. -/
theorem generateNewAnalysis_falsy_params_rejected_witness :
    generateNewAnalysis ⟨some "doc", some "doc-1", some 0, some "hi"⟩ c3Env c3Store =
      (⟨400, Json.obj [("error", Json.str "Missing required parameters.")]⟩,
        c3Store, []) :=
  generateNewAnalysis_falsy_params_rejected ⟨some "doc", some "doc-1", some 0, some "hi"⟩
    c3Env c3Store (Or.inl rfl)

end Resudemo
